import Mathlib

/-!
Verification of the ArchiMate model generator (`create_model.py`).

The generator is a pure construction: from three integer parameters
(`n_servers`, `n_k8s_clusters`, `k8s_workers_per_cluster`) it builds an
in-memory model (elements, relationships, an organization folder, two
property definitions) and serializes it to XML.  We embed the construction
shallowly: each XML node kind becomes a record, and `build_model` becomes a
pure Lean function of the three parameters plus the wall-clock string `now`
(the one impure input, used only inside the documentation text).
-/

namespace Archi

/-- A `<property>` node: a reference to a property definition plus a value. -/
structure ModelProperty where
  propertyDefinitionRef : String
  value : String
deriving DecidableEq

/-- An `<element>` node: identifier, `xsi:type` value, German display name,
and the ordered list of properties. -/
structure Element where
  identifier : String
  xsiType : String
  name_de : String
  properties : List ModelProperty
deriving DecidableEq

/-- A `<relationship>` node: identifier, `xsi:type` value, `source` and
`target` attributes, and an optional German display name. -/
structure Relationship where
  identifier : String
  xsiType : String
  source : String
  target : String
  name_de : Option String
deriving DecidableEq

/-- A `<propertyDefinition>` node (the `type` attribute is always "string"). -/
structure PropertyDefinition where
  identifier : String
  name_de : String
deriving DecidableEq

/-- The `<model>` root: header data, the elements and relationships
sequences, the single organization folder (its label plus the ordered leaf
references), and the property definitions. -/
structure Model where
  identifier : String
  name_de : String
  documentation : String
  elements : List Element
  relationships : List Relationship
  orgLabel : String
  orgRefs : List String
  propertyDefinitions : List PropertyDefinition
deriving DecidableEq

/-- `make_element`: in the source it creates an `<element>` child of the
`<elements>` node; here it returns the record (the caller appends it). -/
def make_element (identifier element_type name_de : String) : Element :=
  { identifier := identifier, xsiType := element_type, name_de := name_de,
    properties := [] }

/-- `add_property`: appends one `<property>` to the element's
`<properties>` node. -/
def add_property (el : Element) (prop_def_ref value : String) : Element :=
  { el with properties := el.properties ++ [⟨prop_def_ref, value⟩] }

/-- `make_relationship`: creates a `<relationship>` node. -/
def make_relationship (identifier rel_type source target : String)
    (name_de : Option String) : Relationship :=
  { identifier := identifier, xsiType := rel_type, source := source,
    target := target, name_de := name_de }

/-- Python `f"{n:04d}"` / `f"{n:03d}"` for a nonnegative `n`: the decimal
representation (`Nat.repr`, most significant digit first) left-padded with
`'0'` to width `w`. -/
def pad (w : Nat) (n : Nat) : String :=
  ⟨List.replicate (w - (Nat.repr n).data.length) '0' ++ (Nat.repr n).data⟩

def id_loc : String := "id-loc-dc1"

def id_svc_portfolio : String := "id-techsvc-portfolio"

def id_svc_k8s : String := "id-techsvc-k8s"

def id_net_core : String := "id-net-core"

def id_vlan_server : String := "id-vlan20-server"

def id_vlan_mgmt : String := "id-vlan30-mgmt"

/-- `f"id-dev-srv-{i:04d}"`. -/
def serverId (i : Nat) : String := "id-dev-srv-" ++ pad 4 i

/-- `f"id-node-k8s-cluster-{c:03d}"`. -/
def clusterId (c : Nat) : String := "id-node-k8s-cluster-" ++ pad 3 c

/-- `f"id-dev-k8s-worker-{c:03d}-{w:03d}"`. -/
def workerId (c w : Nat) : String :=
  "id-dev-k8s-worker-" ++ (pad 3 c ++ ("-" ++ pad 3 w))

/-- The six fixed element identifiers, in creation order. -/
def coreIds : List String :=
  [id_loc, id_svc_portfolio, id_svc_k8s, id_net_core, id_vlan_server,
    id_vlan_mgmt]

/-- The six fixed elements (location, the two services, the three
communication networks), in creation order. -/
def coreElements : List Element :=
  [ make_element id_loc "Location" "Rechenzentrum DC1",
    add_property
      (make_element id_svc_portfolio "TechnologyService"
        "Service-Portfolio (250 Services)") "pd-count" "250",
    make_element id_svc_k8s "TechnologyService" "Containerplattform (Kubernetes)",
    make_element id_net_core "CommunicationNetwork" "Core Netzwerk",
    make_element id_vlan_server "CommunicationNetwork" "VLAN 20 – Server",
    make_element id_vlan_mgmt "CommunicationNetwork" "VLAN 30 – Management" ]

/-- The server device created in iteration `i` of the server loop. -/
def serverElement (i : Nat) : Element :=
  add_property (make_element (serverId i) "Device" ("Server " ++ pad 4 i))
    "pd-tech" (if i % 2 = 0 then "x86_64, Linux" else "x86_64, Windows")

/-- The cluster node created in iteration `c` of the cluster loop. -/
def clusterElement (c : Nat) : Element :=
  add_property
    (make_element (clusterId c) "Node" ("Kubernetes Cluster " ++ pad 3 c))
    "pd-tech" "Kubernetes"

/-- The worker device created in iteration `w` of cluster `c`'s inner loop. -/
def workerElement (c w : Nat) : Element :=
  add_property
    (make_element (workerId c w) "Device"
      ("K8s Worker " ++ (pad 3 c ++ ("-" ++ pad 3 w))))
    "pd-tech" "Linux Worker Node"

/-- The three fixed relationships (location/core, core/VLANs). -/
def coreRelationships : List Relationship :=
  [ make_relationship "r-loc-contains-core" "Composition" id_loc id_net_core none,
    make_relationship "r-core-agg-vlan20" "Aggregation" id_net_core id_vlan_server none,
    make_relationship "r-core-agg-vlan30" "Aggregation" id_net_core id_vlan_mgmt none ]

/-- `f"r-srv-{i:04d}-vlan"`. -/
def srvVlanRelId (i : Nat) : String := "r-srv-" ++ (pad 4 i ++ "-vlan")

/-- `f"r-srv-{i:04d}-portfolio"`. -/
def srvPortfolioRelId (i : Nat) : String := "r-srv-" ++ (pad 4 i ++ "-portfolio")

/-- `f"r-k8s-{c:03d}-realize"`. -/
def k8sRealizeRelId (c : Nat) : String := "r-k8s-" ++ (pad 3 c ++ "-realize")

/-- `f"r-k8s-{c:03d}-core"`. -/
def k8sCoreRelId (c : Nat) : String := "r-k8s-" ++ (pad 3 c ++ "-core")

/-- `f"r-wk-{c:03d}-{w:03d}-cluster"`. -/
def wkClusterRelId (c w : Nat) : String :=
  "r-wk-" ++ (pad 3 c ++ ("-" ++ (pad 3 w ++ "-cluster")))

/-- `f"r-wk-{c:03d}-{w:03d}-vlan"`. -/
def wkVlanRelId (c w : Nat) : String :=
  "r-wk-" ++ (pad 3 c ++ ("-" ++ (pad 3 w ++ "-vlan")))

/-- The two relationships created for server `i`. -/
def serverRelationships (i : Nat) : List Relationship :=
  [ make_relationship (srvVlanRelId i) "Association" (serverId i)
      id_vlan_server none,
    make_relationship (srvPortfolioRelId i) "Realization" (serverId i)
      id_svc_portfolio none ]

/-- The two relationships created for cluster `c`. -/
def clusterRelationships (c : Nat) : List Relationship :=
  [ make_relationship (k8sRealizeRelId c) "Realization" (clusterId c)
      id_svc_k8s none,
    make_relationship (k8sCoreRelId c) "Association" (clusterId c)
      id_net_core none ]

/-- The two relationships created for worker `w` of cluster `c`. -/
def workerRelationships (c w : Nat) : List Relationship :=
  [ make_relationship (wkClusterRelId c w) "Association" (workerId c w)
      (clusterId c) none,
    make_relationship (wkVlanRelId c w) "Association" (workerId c w)
      id_vlan_server none ]

/-- Python `range(1, n + 1)` — the index sequence of each loop. -/
def loopRange (n : Nat) : List Nat := List.range' 1 n

/-- The `server_ids` list collected by the server loop. -/
def server_ids (n_servers : Nat) : List String :=
  (loopRange n_servers).map serverId

/-- The `cluster_ids` list collected by the cluster loop. -/
def cluster_ids (n_k8s_clusters : Nat) : List String :=
  (loopRange n_k8s_clusters).map clusterId

/-- The `worker_ids` list collected across all clusters. -/
def worker_ids (n_k8s_clusters k8s_workers_per_cluster : Nat) : List String :=
  (loopRange n_k8s_clusters).flatMap
    (fun c => (loopRange k8s_workers_per_cluster).map (workerId c))

/-- `build_model`: the whole model construction, as a pure function of the
three parameters and the wall-clock string `now`
(`dt.datetime.now().isoformat(timespec='seconds')`), which enters only the
documentation text. -/
def build_model (n_servers n_k8s_clusters k8s_workers_per_cluster : Nat)
    (now : String) : Model :=
  { identifier := "id-model-dc-large"
    name_de := "Beispiel: Großes Rechenzentrum (Server + Kubernetes) – generiert"
    documentation :=
      "Generiertes Beispielmodell mit " ++ Nat.repr n_servers ++
        " Servern und " ++ Nat.repr n_k8s_clusters ++
        " Kubernetes-Clustern (Workers/Cluster=" ++
        Nat.repr k8s_workers_per_cluster ++ "). Erzeugt am " ++ now ++ "."
    elements :=
      coreElements ++ (loopRange n_servers).map serverElement ++
        (loopRange n_k8s_clusters).flatMap (fun c =>
          clusterElement c ::
            (loopRange k8s_workers_per_cluster).map (workerElement c))
    relationships :=
      coreRelationships ++
        (loopRange n_servers).flatMap serverRelationships ++
        (loopRange n_k8s_clusters).flatMap (fun c =>
          clusterRelationships c ++
            (loopRange k8s_workers_per_cluster).flatMap (workerRelationships c))
    orgLabel := "Technology"
    orgRefs :=
      coreIds ++ server_ids n_servers ++ cluster_ids n_k8s_clusters ++
        worker_ids n_k8s_clusters k8s_workers_per_cluster
    propertyDefinitions := [⟨"pd-count", "count"⟩, ⟨"pd-tech", "technology"⟩] }

/-- Outcome of running `main`: either a fatal `SystemExit` with its message
(raised before `build_model` is called, so nothing is written), or success
with the written model and the two printed summary lines. -/
inductive CliOutcome where
  | fatal (msg : String)
  | success (written : Model) (line1 line2 : String)
deriving DecidableEq

/-- `main`: validates the parsed integer arguments and, when valid, builds
and writes the model and prints the two-line summary. -/
def run_main (servers k8s_clusters k8s_workers_per_cluster : Int)
    (out now : String) : CliOutcome :=
  if servers < 1 then .fatal "ERROR: --servers must be >= 1"
  else if k8s_clusters < 1 then .fatal "ERROR: --k8s-clusters must be >= 1"
  else if k8s_workers_per_cluster < 0 then
    .fatal "ERROR: --k8s-workers-per-cluster must be >= 0"
  else
    .success
      (build_model servers.toNat k8s_clusters.toNat
        k8s_workers_per_cluster.toNat now)
      ("Wrote: " ++ out)
      ("Servers: " ++ Nat.repr servers.toNat ++ ", K8s clusters: " ++
        Nat.repr k8s_clusters.toNat ++ ", K8s workers total: " ++
        Nat.repr (worker_ids k8s_clusters.toNat
          k8s_workers_per_cluster.toNat).length)

/-! ### Observers -/

/-- The identifiers of the model's elements, in document order. -/
def elementIds (m : Model) : List String := m.elements.map (·.identifier)

/-- The identifiers of the model's relationships, in document order. -/
def relationshipIds (m : Model) : List String :=
  m.relationships.map (·.identifier)

/-- Boolean string-prefix test (on the underlying character lists). -/
def strHasP (p s : String) : Bool := p.data.isPrefixOf s.data

/-- Number of elements with the given `xsi:type`. -/
def countType (m : Model) (t : String) : Nat :=
  m.elements.countP (fun e => e.xsiType == t)

/-- A `Device` element created by the server loop. -/
def isServerDevice (e : Element) : Bool :=
  e.xsiType == "Device" && strHasP "id-dev-srv-" e.identifier

/-- A `Device` element created by a worker loop. -/
def isWorkerDevice (e : Element) : Bool :=
  e.xsiType == "Device" && strHasP "id-dev-k8s-worker-" e.identifier

/-- A relationship created by a worker loop. -/
def isWorkerRelationship (r : Relationship) : Bool :=
  strHasP "r-wk-" r.identifier

/-- The value of the element's `pd-tech` property, when present. -/
def techValue (e : Element) : Option String :=
  (e.properties.find? (fun p => p.propertyDefinitionRef == "pd-tech")).map
    (·.value)

/-! ### Decimal representation: relating `Nat.repr` to `Nat.digits` -/

/-- Most-significant-first decimal digit characters of `n` (`['0']` for 0). -/
def decChars (n : Nat) : List Char :=
  if n = 0 then ['0'] else ((Nat.digits 10 n).map Nat.digitChar).reverse

theorem decChars_zero : decChars 0 = ['0'] := rfl

theorem toDigitsCore_eq : ∀ (fuel n : Nat) (ds : List Char), n < fuel →
    Nat.toDigitsCore 10 fuel n ds = decChars n ++ ds
  | 0, n, _, h => absurd h (Nat.not_lt_zero n)
  | fuel + 1, n, ds, h => by
    by_cases h0 : n / 10 = 0
    · have hn : n < 10 := by
        by_contra hge
        push_neg at hge
        have : 0 < n / 10 := Nat.div_pos hge (by norm_num)
        omega
      simp only [Nat.toDigitsCore, h0, if_pos]
      rcases Nat.eq_zero_or_pos n with rfl | hpos
      · simp [decChars, show Nat.digitChar 0 = '0' from by decide]
      · have hdig : Nat.digits 10 n = [n] :=
          Nat.digits_of_lt 10 n (by omega) hn
        simp [decChars, Nat.pos_iff_ne_zero.mp hpos, hdig, Nat.mod_eq_of_lt hn]
    · have h10 : 10 ≤ n := by
        by_contra hlt
        push_neg at hlt
        exact h0 (Nat.div_eq_of_lt hlt)
      have hrec : n / 10 < fuel := by
        have : n / 10 < n := Nat.div_lt_self (by omega) (by norm_num)
        omega
      simp only [Nat.toDigitsCore]
      rw [if_neg h0]
      rw [toDigitsCore_eq fuel (n / 10) (Nat.digitChar (n % 10) :: ds) hrec]
      have hd : Nat.digits 10 n = n % 10 :: Nat.digits 10 (n / 10) :=
        Nat.digits_def' (by norm_num) (by omega)
      unfold decChars
      rw [if_neg h0, if_neg (by omega : ¬ n = 0), hd]
      simp

theorem repr_data (n : Nat) : (Nat.repr n).data = decChars n := by
  show (Nat.toDigits 10 n).asString.data = decChars n
  rw [Nat.toDigits, toDigitsCore_eq (n + 1) n [] (Nat.lt_succ_self n)]
  simp [List.asString]

/-- The ten decimal digit characters. -/
def decDigitChars : List Char := ['0', '1', '2', '3', '4', '5', '6', '7', '8', '9']

theorem digitChar_mem (d : Nat) (hd : d < 10) : Nat.digitChar d ∈ decDigitChars := by
  interval_cases d <;> decide

theorem digitChar_inj {d e : Nat} (hd : d < 10) (he : e < 10)
    (h : Nat.digitChar d = Nat.digitChar e) : d = e := by
  interval_cases d <;> interval_cases e <;> first | rfl | exact absurd h (by decide)

theorem digitChar_ne_zero {d : Nat} (hd : d < 10) (h0 : d ≠ 0) :
    Nat.digitChar d ≠ '0' := by
  interval_cases d <;> first | exact absurd rfl h0 | decide

theorem mem_decChars {n : Nat} {ch : Char} (h : ch ∈ decChars n) :
    ch ∈ decDigitChars := by
  unfold decChars at h
  by_cases hn : n = 0
  · rw [if_pos hn] at h
    simp at h
    subst h
    decide
  · rw [if_neg hn, List.mem_reverse, List.mem_map] at h
    obtain ⟨d, hd, rfl⟩ := h
    exact digitChar_mem d (Nat.digits_lt_base (by norm_num) hd)

theorem decChars_head {n : Nat} (hn : n ≠ 0) :
    ∃ ch t, decChars n = ch :: t ∧ ch ≠ '0' := by
  have hnil : Nat.digits 10 n ≠ [] := Nat.digits_ne_nil_iff_ne_zero.mpr hn
  have hsplit : (Nat.digits 10 n).dropLast ++ [(Nat.digits 10 n).getLast hnil] =
      Nat.digits 10 n := List.dropLast_append_getLast hnil
  have hlast : (Nat.digits 10 n).getLast hnil ≠ 0 :=
    Nat.getLast_digit_ne_zero 10 hn
  have hmem : (Nat.digits 10 n).getLast hnil ∈ Nat.digits 10 n :=
    List.getLast_mem hnil
  refine ⟨Nat.digitChar ((Nat.digits 10 n).getLast hnil),
    ((Nat.digits 10 n).dropLast.map Nat.digitChar).reverse, ?_, ?_⟩
  · unfold decChars
    rw [if_neg hn]
    conv_lhs => rw [← hsplit]
    simp
  · exact digitChar_ne_zero (Nat.digits_lt_base (by norm_num) hmem) hlast

theorem map_digitChar_inj : ∀ {l₁ l₂ : List Nat},
    (∀ d ∈ l₁, d < 10) → (∀ d ∈ l₂, d < 10) →
    l₁.map Nat.digitChar = l₂.map Nat.digitChar → l₁ = l₂
  | [], [], _, _, _ => rfl
  | [], _ :: _, _, _, h => by simp at h
  | _ :: _, [], _, _, h => by simp at h
  | d :: l₁, e :: l₂, h₁, h₂, h => by
    simp only [List.map_cons, List.cons.injEq] at h
    have hde : d = e :=
      digitChar_inj (h₁ d (by simp)) (h₂ e (by simp)) h.1
    have hl : l₁ = l₂ :=
      map_digitChar_inj (fun x hx => h₁ x (by simp [hx]))
        (fun x hx => h₂ x (by simp [hx])) h.2
    rw [hde, hl]

theorem decChars_inj : ∀ {m n : Nat}, decChars m = decChars n → m = n := by
  have key : ∀ {m n : Nat}, m ≠ 0 → n ≠ 0 → decChars m = decChars n → m = n := by
    intro m n hm hn h
    unfold decChars at h
    rw [if_neg hm, if_neg hn, List.reverse_inj] at h
    have hdig : Nat.digits 10 m = Nat.digits 10 n :=
      map_digitChar_inj (fun d hd => Nat.digits_lt_base (by norm_num) hd)
        (fun d hd => Nat.digits_lt_base (by norm_num) hd) h
    have := congrArg (Nat.ofDigits 10) hdig
    rwa [Nat.ofDigits_digits, Nat.ofDigits_digits] at this
  intro m n h
  rcases eq_or_ne m 0 with rfl | hm
  · rcases eq_or_ne n 0 with rfl | hn
    · rfl
    · obtain ⟨ch, t, hc, h0⟩ := decChars_head hn
      rw [decChars_zero, hc] at h
      exact absurd (List.head_eq_of_cons_eq h).symm h0
  · rcases eq_or_ne n 0 with rfl | hn
    · obtain ⟨ch, t, hc, h0⟩ := decChars_head hm
      rw [decChars_zero, hc] at h
      exact absurd (List.head_eq_of_cons_eq h.symm).symm h0
    · exact key hm hn h

/-! ### Padding lemmas -/

theorem pad_data (w n : Nat) :
    (pad w n).data =
      List.replicate (w - (decChars n).length) '0' ++ decChars n := by
  show List.replicate (w - (Nat.repr n).data.length) '0' ++ (Nat.repr n).data = _
  rw [repr_data]

theorem replicate_cancel {z : Char} (a : Nat) : ∀ (b : Nat) (x y : List Char),
    x.head? ≠ some z → y.head? ≠ some z →
    List.replicate a z ++ x = List.replicate b z ++ y → a = b ∧ x = y := by
  induction a with
  | zero =>
    intro b x y hx _ h
    cases b with
    | zero => exact ⟨rfl, by simpa using h⟩
    | succ b =>
      exfalso
      apply hx
      simp only [List.replicate_zero, List.nil_append, List.replicate_succ,
        List.cons_append] at h
      rw [h]
      rfl
  | succ a ih =>
    intro b x y hx hy h
    cases b with
    | zero =>
      exfalso
      apply hy
      simp only [List.replicate_zero, List.nil_append, List.replicate_succ,
        List.cons_append] at h
      rw [← h]
      rfl
    | succ b =>
      simp only [List.replicate_succ, List.cons_append, List.cons.injEq,
        true_and] at h
      obtain ⟨h1, h2⟩ := ih b x y hx hy h
      exact ⟨by omega, h2⟩

theorem pad_inj {w m n : Nat} (hm : m ≠ 0) (hn : n ≠ 0)
    (h : (pad w m).data = (pad w n).data) : m = n := by
  rw [pad_data, pad_data] at h
  obtain ⟨chm, tm, hcm, h0m⟩ := decChars_head hm
  obtain ⟨chn, tn, hcn, h0n⟩ := decChars_head hn
  have hx : (decChars m).head? ≠ some '0' := by
    rw [hcm]
    simpa using h0m
  have hy : (decChars n).head? ≠ some '0' := by
    rw [hcn]
    simpa using h0n
  exact decChars_inj (replicate_cancel _ _ _ _ hx hy h).2

theorem pad_no_dash (w n : Nat) : '-' ∉ (pad w n).data := by
  rw [pad_data]
  intro h
  rcases List.mem_append.mp h with h | h
  · exact absurd (List.eq_of_mem_replicate h) (by decide)
  · exact absurd (mem_decChars h) (by decide)

/-! ### String prefix / separator toolkit -/

theorem sep_cancel {sep : Char} : ∀ (u u' v v' : List Char),
    sep ∉ u → sep ∉ u' → u ++ sep :: v = u' ++ sep :: v' → u = u' ∧ v = v'
  | [], [], _, _, _, _, h => by simpa using h
  | [], c :: u', _, _, _, hu', h => by
    simp only [List.nil_append, List.cons_append, List.cons.injEq] at h
    exact absurd (by simp [h.1]) hu'
  | c :: u, [], _, _, hu, _, h => by
    simp only [List.nil_append, List.cons_append, List.cons.injEq] at h
    exact absurd (by simp [h.1]) hu
  | c :: u, c' :: u', v, v', hu, hu', h => by
    simp only [List.cons_append, List.cons.injEq] at h
    obtain ⟨h1, h2⟩ :=
      sep_cancel u u' v v' (fun hm => hu (by simp [hm]))
        (fun hm => hu' (by simp [hm])) h.2
    exact ⟨by rw [h.1, h1], h2⟩

theorem pre_comparable {l₁ l₂ l₃ : List Char} (h₁ : l₁ <+: l₃)
    (h₂ : l₂ <+: l₃) : l₁ <+: l₂ ∨ l₂ <+: l₁ :=
  (Nat.le_total l₁.length l₂.length).imp
    (List.prefix_of_prefix_length_le h₁ h₂)
    (fun h => List.prefix_of_prefix_length_le h₂ h₁ h)

theorem str_ne_of_mismatch {a b : String} (h1 : ¬ a.data <+: b.data)
    (h2 : ¬ b.data <+: a.data) (x y : String) : a ++ x ≠ b ++ y := by
  intro h
  have hd : a.data ++ x.data = b.data ++ y.data := by
    simpa using congrArg String.data h
  have ha : a.data <+: b.data ++ y.data := hd ▸ List.prefix_append a.data x.data
  have hb : b.data <+: b.data ++ y.data := List.prefix_append b.data y.data
  rcases pre_comparable ha hb with h' | h'
  · exact h1 h'
  · exact h2 h'

theorem str_append_ne {a b : String} (h1 : ¬ a.data <+: b.data) (x : String) :
    a ++ x ≠ b := by
  intro h
  apply h1
  have hd : a.data ++ x.data = b.data := by
    simpa using congrArg String.data h
  exact hd ▸ List.prefix_append a.data x.data

theorem not_pre_of_mismatch {a b : String} (h1 : ¬ a.data <+: b.data)
    (h2 : ¬ b.data <+: a.data) (x : String) : ¬ a.data <+: (b ++ x).data := by
  intro h
  rw [String.data_append] at h
  have hb : b.data <+: b.data ++ x.data := List.prefix_append b.data x.data
  rcases pre_comparable h hb with h' | h'
  · exact h1 h'
  · exact h2 h'

theorem strHasP_iff {p s : String} : strHasP p s = true ↔ p.data <+: s.data := by
  unfold strHasP
  exact List.isPrefixOf_iff_prefix

theorem strHasP_self (p x : String) : strHasP p (p ++ x) = true := by
  rw [strHasP_iff, String.data_append]
  exact List.prefix_append p.data x.data

theorem strHasP_false {p s : String} (h : ¬ p.data <+: s.data) :
    strHasP p s = false := by
  rw [← Bool.not_eq_true, strHasP_iff]
  exact h

/-! ### Projection lemmas -/

@[simp] theorem make_element_identifier (i t n : String) :
    (make_element i t n).identifier = i := rfl

@[simp] theorem add_property_identifier (el : Element) (r v : String) :
    (add_property el r v).identifier = el.identifier := rfl

@[simp] theorem make_element_xsiType (i t n : String) :
    (make_element i t n).xsiType = t := rfl

@[simp] theorem add_property_xsiType (el : Element) (r v : String) :
    (add_property el r v).xsiType = el.xsiType := rfl

@[simp] theorem serverElement_identifier (i : Nat) :
    (serverElement i).identifier = serverId i := rfl

@[simp] theorem clusterElement_identifier (c : Nat) :
    (clusterElement c).identifier = clusterId c := rfl

@[simp] theorem workerElement_identifier (c w : Nat) :
    (workerElement c w).identifier = workerId c w := rfl

@[simp] theorem serverElement_xsiType (i : Nat) :
    (serverElement i).xsiType = "Device" := rfl

@[simp] theorem clusterElement_xsiType (c : Nat) :
    (clusterElement c).xsiType = "Node" := rfl

@[simp] theorem workerElement_xsiType (c w : Nat) :
    (workerElement c w).xsiType = "Device" := rfl

@[simp] theorem make_relationship_identifier (i t s' t' : String)
    (n : Option String) : (make_relationship i t s' t' n).identifier = i := rfl

@[simp] theorem make_relationship_source (i t s' t' : String)
    (n : Option String) : (make_relationship i t s' t' n).source = s' := rfl

@[simp] theorem make_relationship_target (i t s' t' : String)
    (n : Option String) : (make_relationship i t s' t' n).target = t' := rfl

/-! ### Identifier distinctness -/

theorem serverId_inj {i j : Nat} (hi : i ≠ 0) (hj : j ≠ 0)
    (h : serverId i = serverId j) : i = j := by
  unfold serverId at h
  have hd := congrArg String.data h
  simp only [String.data_append] at hd
  exact pad_inj hi hj (List.append_cancel_left hd)

theorem clusterId_inj {i j : Nat} (hi : i ≠ 0) (hj : j ≠ 0)
    (h : clusterId i = clusterId j) : i = j := by
  unfold clusterId at h
  have hd := congrArg String.data h
  simp only [String.data_append] at hd
  exact pad_inj hi hj (List.append_cancel_left hd)

theorem workerId_inj {c w c' w' : Nat} (hc : c ≠ 0) (hc' : c' ≠ 0)
    (hw : w ≠ 0) (hw' : w' ≠ 0) (h : workerId c w = workerId c' w') :
    c = c' ∧ w = w' := by
  unfold workerId at h
  have hd := congrArg String.data h
  simp only [String.data_append, show ("-" : String).data = ['-'] from rfl,
    List.singleton_append] at hd
  have hd := List.append_cancel_left hd
  obtain ⟨h1, h2⟩ := sep_cancel _ _ _ _ (pad_no_dash 3 c) (pad_no_dash 3 c') hd
  exact ⟨pad_inj hc hc' h1, pad_inj hw hw' h2⟩

theorem serverId_ne_clusterId (i c : Nat) : serverId i ≠ clusterId c :=
  str_ne_of_mismatch (by decide) (by decide) _ _

theorem serverId_ne_workerId (i c w : Nat) : serverId i ≠ workerId c w :=
  str_ne_of_mismatch (by decide) (by decide) _ _

theorem clusterId_ne_workerId (c c' w : Nat) : clusterId c ≠ workerId c' w :=
  str_ne_of_mismatch (by decide) (by decide) _ _

theorem serverId_not_core (i : Nat) : serverId i ∉ coreIds := by
  intro hmem
  simp only [coreIds, List.mem_cons, List.not_mem_nil, or_false] at hmem
  rcases hmem with h | h | h | h | h | h <;>
    exact str_append_ne (by decide) _ h

theorem clusterId_not_core (c : Nat) : clusterId c ∉ coreIds := by
  intro hmem
  simp only [coreIds, List.mem_cons, List.not_mem_nil, or_false] at hmem
  rcases hmem with h | h | h | h | h | h <;>
    exact str_append_ne (by decide) _ h

theorem workerId_not_core (c w : Nat) : workerId c w ∉ coreIds := by
  intro hmem
  simp only [coreIds, List.mem_cons, List.not_mem_nil, or_false] at hmem
  rcases hmem with h | h | h | h | h | h <;>
    exact str_append_ne (by decide) _ h

/-- Master injectivity for the server/cluster relationship identifier shape
`p ++ (pad wd i ++ x)` with a dash-led suffix `x`. -/
theorem tagRel_inj {p : String} {wd i j : Nat} {x y : String}
    {xt yt : List Char} (hi : i ≠ 0) (hj : j ≠ 0)
    (hx : x.data = '-' :: xt) (hy : y.data = '-' :: yt)
    (h : p ++ (pad wd i ++ x) = p ++ (pad wd j ++ y)) : i = j ∧ xt = yt := by
  have hd := congrArg String.data h
  simp only [String.data_append, hx, hy] at hd
  have hd := List.append_cancel_left hd
  obtain ⟨h1, h2⟩ :=
    sep_cancel _ _ _ _ (pad_no_dash wd i) (pad_no_dash wd j) hd
  exact ⟨pad_inj hi hj h1, h2⟩

/-- Master injectivity for the worker relationship identifier shape
`"r-wk-" ++ (pad 3 c ++ ("-" ++ (pad 3 w ++ x)))` with a dash-led suffix. -/
theorem wkRel_inj {c w c' w' : Nat} {x y : String} {xt yt : List Char}
    (hc : c ≠ 0) (hc' : c' ≠ 0) (hw : w ≠ 0) (hw' : w' ≠ 0)
    (hx : x.data = '-' :: xt) (hy : y.data = '-' :: yt)
    (h : "r-wk-" ++ (pad 3 c ++ ("-" ++ (pad 3 w ++ x))) =
      "r-wk-" ++ (pad 3 c' ++ ("-" ++ (pad 3 w' ++ y)))) :
    c = c' ∧ w = w' ∧ xt = yt := by
  have hd := congrArg String.data h
  simp only [String.data_append, show ("-" : String).data = ['-'] from rfl,
    List.singleton_append, hx, hy] at hd
  have hd := List.append_cancel_left hd
  obtain ⟨h1, h2⟩ := sep_cancel _ _ _ _ (pad_no_dash 3 c) (pad_no_dash 3 c') hd
  obtain ⟨h3, h4⟩ := sep_cancel _ _ _ _ (pad_no_dash 3 w) (pad_no_dash 3 w') h2
  exact ⟨pad_inj hc hc' h1, pad_inj hw hw' h3, h4⟩

theorem srvVlan_inj {i j : Nat} (hi : i ≠ 0) (hj : j ≠ 0)
    (h : srvVlanRelId i = srvVlanRelId j) : i = j :=
  (tagRel_inj hi hj rfl rfl h).1

theorem srvPortfolio_inj {i j : Nat} (hi : i ≠ 0) (hj : j ≠ 0)
    (h : srvPortfolioRelId i = srvPortfolioRelId j) : i = j :=
  (tagRel_inj hi hj rfl rfl h).1

theorem srvVlan_ne_srvPortfolio {i j : Nat} (hi : i ≠ 0) (hj : j ≠ 0) :
    srvVlanRelId i ≠ srvPortfolioRelId j := by
  intro h
  exact absurd (tagRel_inj hi hj rfl rfl h).2 (by decide)

theorem k8sRealize_inj {i j : Nat} (hi : i ≠ 0) (hj : j ≠ 0)
    (h : k8sRealizeRelId i = k8sRealizeRelId j) : i = j :=
  (tagRel_inj hi hj rfl rfl h).1

theorem k8sCore_inj {i j : Nat} (hi : i ≠ 0) (hj : j ≠ 0)
    (h : k8sCoreRelId i = k8sCoreRelId j) : i = j :=
  (tagRel_inj hi hj rfl rfl h).1

theorem k8sRealize_ne_k8sCore {i j : Nat} (hi : i ≠ 0) (hj : j ≠ 0) :
    k8sRealizeRelId i ≠ k8sCoreRelId j := by
  intro h
  exact absurd (tagRel_inj hi hj rfl rfl h).2 (by decide)

theorem wkCluster_inj {c w c' w' : Nat} (hc : c ≠ 0) (hc' : c' ≠ 0)
    (hw : w ≠ 0) (hw' : w' ≠ 0)
    (h : wkClusterRelId c w = wkClusterRelId c' w') : c = c' ∧ w = w' := by
  have h' := wkRel_inj hc hc' hw hw' rfl rfl h
  exact ⟨h'.1, h'.2.1⟩

theorem wkVlan_inj {c w c' w' : Nat} (hc : c ≠ 0) (hc' : c' ≠ 0)
    (hw : w ≠ 0) (hw' : w' ≠ 0)
    (h : wkVlanRelId c w = wkVlanRelId c' w') : c = c' ∧ w = w' := by
  have h' := wkRel_inj hc hc' hw hw' rfl rfl h
  exact ⟨h'.1, h'.2.1⟩

theorem wkCluster_eq_wkVlan_parts {c w c' w' : Nat} (hc : c ≠ 0)
    (hc' : c' ≠ 0) (hw : w ≠ 0) (hw' : w' ≠ 0)
    (h : wkClusterRelId c w = wkVlanRelId c' w') : False := by
  exact absurd (wkRel_inj hc hc' hw hw' rfl rfl h).2.2 (by decide)

/-- The three fixed relationship identifiers, in creation order. -/
def coreRelIds : List String :=
  ["r-loc-contains-core", "r-core-agg-vlan20", "r-core-agg-vlan30"]

theorem srvRel_not_core (x : String) : ("r-srv-" ++ x) ∉ coreRelIds := by
  intro hmem
  simp only [coreRelIds, List.mem_cons, List.not_mem_nil, or_false] at hmem
  rcases hmem with h | h | h <;> exact str_append_ne (by decide) _ h

theorem k8sRel_not_core (x : String) : ("r-k8s-" ++ x) ∉ coreRelIds := by
  intro hmem
  simp only [coreRelIds, List.mem_cons, List.not_mem_nil, or_false] at hmem
  rcases hmem with h | h | h <;> exact str_append_ne (by decide) _ h

theorem wkRel_not_core (x : String) : ("r-wk-" ++ x) ∉ coreRelIds := by
  intro hmem
  simp only [coreRelIds, List.mem_cons, List.not_mem_nil, or_false] at hmem
  rcases hmem with h | h | h <;> exact str_append_ne (by decide) _ h

/-! ### The document's identifier lists -/

theorem mem_loopRange_iff {i n : Nat} : i ∈ loopRange n ↔ 1 ≤ i ∧ i ≤ n := by
  unfold loopRange
  rw [List.mem_range'_1]
  omega

theorem ne_zero_of_mem_loopRange {i n : Nat} (h : i ∈ loopRange n) : i ≠ 0 := by
  have := mem_loopRange_iff.mp h
  omega

theorem loopRange_nodup (n : Nat) : (loopRange n).Nodup := List.nodup_range' 1 n

theorem loopRange_pairwise_ne (n : Nat) : (loopRange n).Pairwise (· ≠ ·) :=
  (List.pairwise_lt_range' 1 n).imp Nat.ne_of_lt

theorem elements_eq (s c w : Nat) (now : String) :
    (build_model s c w now).elements =
      coreElements ++ (loopRange s).map serverElement ++
        (loopRange c).flatMap (fun ci =>
          clusterElement ci :: (loopRange w).map (workerElement ci)) := rfl

theorem relationships_eq (s c w : Nat) (now : String) :
    (build_model s c w now).relationships =
      coreRelationships ++ (loopRange s).flatMap serverRelationships ++
        (loopRange c).flatMap (fun ci =>
          clusterRelationships ci ++
            (loopRange w).flatMap (workerRelationships ci)) := rfl

theorem elementIds_eq (s c w : Nat) (now : String) :
    elementIds (build_model s c w now) =
      coreIds ++ (loopRange s).map serverId ++
        (loopRange c).flatMap (fun ci =>
          clusterId ci :: (loopRange w).map (workerId ci)) := by
  unfold elementIds build_model coreElements coreIds
  simp [List.map_flatMap, Function.comp_def]

theorem relationshipIds_eq (s c w : Nat) (now : String) :
    relationshipIds (build_model s c w now) =
      coreRelIds ++
        (loopRange s).flatMap (fun i => [srvVlanRelId i, srvPortfolioRelId i]) ++
        (loopRange c).flatMap (fun ci =>
          [k8sRealizeRelId ci, k8sCoreRelId ci] ++
            (loopRange w).flatMap (fun wi =>
              [wkClusterRelId ci wi, wkVlanRelId ci wi])) := by
  unfold relationshipIds build_model coreRelationships serverRelationships
    clusterRelationships workerRelationships coreRelIds
  simp [List.map_flatMap, Function.comp_def]

/-! ### I1: element identifiers are pairwise distinct -/

theorem elementIds_nodup (s c w : Nat) (now : String) :
    (elementIds (build_model s c w now)).Nodup := by
  rw [elementIds_eq, List.append_assoc, List.nodup_append]
  refine ⟨by decide, ?_, ?_⟩
  · rw [List.nodup_append]
    refine ⟨?_, ?_, ?_⟩
    · refine List.Nodup.map_on ?_ (loopRange_nodup s)
      intro i hi j hj hf
      exact serverId_inj (ne_zero_of_mem_loopRange hi)
        (ne_zero_of_mem_loopRange hj) hf
    · rw [List.nodup_flatMap]
      constructor
      · intro ci hci
        rw [List.nodup_cons]
        constructor
        · intro hmem
          obtain ⟨wi, _, hEq⟩ := List.mem_map.mp hmem
          exact clusterId_ne_workerId ci ci wi hEq.symm
        · refine List.Nodup.map_on ?_ (loopRange_nodup w)
          intro a ha b hb hf
          exact (workerId_inj (ne_zero_of_mem_loopRange hci)
            (ne_zero_of_mem_loopRange hci) (ne_zero_of_mem_loopRange ha)
            (ne_zero_of_mem_loopRange hb) hf).2
      · refine List.Pairwise.imp_of_mem ?_ (loopRange_pairwise_ne c)
        intro ci cj hci hcj hne a hma hmb
        rcases List.mem_cons.mp hma with h1 | h1 <;>
          rcases List.mem_cons.mp hmb with h2 | h2
        · exact hne (clusterId_inj (ne_zero_of_mem_loopRange hci)
            (ne_zero_of_mem_loopRange hcj) (h1 ▸ h2 ▸ rfl))
        · obtain ⟨wj, _, hEq⟩ := List.mem_map.mp h2
          exact clusterId_ne_workerId ci cj wj (h1 ▸ hEq ▸ rfl)
        · obtain ⟨wi, _, hEq⟩ := List.mem_map.mp h1
          exact clusterId_ne_workerId cj ci wi (h2 ▸ hEq ▸ rfl)
        · obtain ⟨wi, hwi, hEqi⟩ := List.mem_map.mp h1
          obtain ⟨wj, hwj, hEqj⟩ := List.mem_map.mp h2
          exact hne (workerId_inj (ne_zero_of_mem_loopRange hci)
            (ne_zero_of_mem_loopRange hcj) (ne_zero_of_mem_loopRange hwi)
            (ne_zero_of_mem_loopRange hwj) (hEqi ▸ hEqj ▸ rfl)).1
    · intro a hma hmb
      obtain ⟨i, _, rfl⟩ := List.mem_map.mp hma
      obtain ⟨ci, _, hmem⟩ := List.mem_flatMap.mp hmb
      rcases List.mem_cons.mp hmem with h | h
      · exact serverId_ne_clusterId i ci h
      · obtain ⟨wi, _, hEq⟩ := List.mem_map.mp h
        exact serverId_ne_workerId i ci wi hEq.symm
  · intro a hma hmb
    rcases List.mem_append.mp hmb with h | h
    · obtain ⟨i, _, rfl⟩ := List.mem_map.mp h
      exact serverId_not_core i hma
    · obtain ⟨ci, _, hmem⟩ := List.mem_flatMap.mp h
      rcases List.mem_cons.mp hmem with h' | h'
      · subst h'
        exact clusterId_not_core ci hma
      · obtain ⟨wi, _, rfl⟩ := List.mem_map.mp h'
        exact workerId_not_core ci wi hma

/-! ### I2 (first half): relationship identifiers are pairwise distinct -/

theorem relationshipIds_nodup (s c w : Nat) (now : String) :
    (relationshipIds (build_model s c w now)).Nodup := by
  rw [relationshipIds_eq, List.append_assoc, List.nodup_append]
  refine ⟨by decide, ?_, ?_⟩
  · rw [List.nodup_append]
    refine ⟨?_, ?_, ?_⟩
    · rw [List.nodup_flatMap]
      constructor
      · intro i hi
        have hi0 := ne_zero_of_mem_loopRange hi
        rw [List.nodup_cons]
        refine ⟨?_, List.nodup_singleton _⟩
        intro hmem
        rw [List.mem_singleton] at hmem
        exact srvVlan_ne_srvPortfolio hi0 hi0 hmem
      · refine List.Pairwise.imp_of_mem ?_ (loopRange_pairwise_ne s)
        intro i j hi hj hne a hma hmb
        have hi0 := ne_zero_of_mem_loopRange hi
        have hj0 := ne_zero_of_mem_loopRange hj
        simp only [List.mem_cons, List.mem_singleton, List.not_mem_nil,
          or_false] at hma hmb
        rcases hma with rfl | rfl <;> rcases hmb with h | h
        · exact hne (srvVlan_inj hi0 hj0 h)
        · exact srvVlan_ne_srvPortfolio hi0 hj0 h
        · exact srvVlan_ne_srvPortfolio hj0 hi0 h.symm
        · exact hne (srvPortfolio_inj hi0 hj0 h)
    · rw [List.nodup_flatMap]
      constructor
      · intro ci hci
        have hc0 := ne_zero_of_mem_loopRange hci
        rw [List.nodup_append]
        refine ⟨?_, ?_, ?_⟩
        · rw [List.nodup_cons]
          refine ⟨?_, List.nodup_singleton _⟩
          intro hmem
          rw [List.mem_singleton] at hmem
          exact k8sRealize_ne_k8sCore hc0 hc0 hmem
        · rw [List.nodup_flatMap]
          constructor
          · intro wi hwi
            have hw0 := ne_zero_of_mem_loopRange hwi
            rw [List.nodup_cons]
            refine ⟨?_, List.nodup_singleton _⟩
            intro hmem
            rw [List.mem_singleton] at hmem
            exact wkCluster_eq_wkVlan_parts hc0 hc0 hw0 hw0 hmem
          · refine List.Pairwise.imp_of_mem ?_ (loopRange_pairwise_ne w)
            intro wi wj hwi hwj hne a hma hmb
            have hwi0 := ne_zero_of_mem_loopRange hwi
            have hwj0 := ne_zero_of_mem_loopRange hwj
            simp only [List.mem_cons, List.mem_singleton, List.not_mem_nil,
              or_false] at hma hmb
            rcases hma with rfl | rfl <;> rcases hmb with h | h
            · exact hne (wkCluster_inj hc0 hc0 hwi0 hwj0 h).2
            · exact wkCluster_eq_wkVlan_parts hc0 hc0 hwi0 hwj0 h
            · exact wkCluster_eq_wkVlan_parts hc0 hc0 hwj0 hwi0 h.symm
            · exact hne (wkVlan_inj hc0 hc0 hwi0 hwj0 h).2
        · intro a hma hmb
          simp only [List.mem_cons, List.mem_singleton, List.not_mem_nil,
            or_false] at hma
          obtain ⟨wi, hwi, hmw⟩ := List.mem_flatMap.mp hmb
          simp only [List.mem_cons, List.mem_singleton, List.not_mem_nil,
            or_false] at hmw
          rcases hma with rfl | rfl <;> rcases hmw with h | h <;>
            exact str_ne_of_mismatch (by decide) (by decide) _ _ h
      · refine List.Pairwise.imp_of_mem ?_ (loopRange_pairwise_ne c)
        intro ci cj hci hcj hne a hma hmb
        have hci0 := ne_zero_of_mem_loopRange hci
        have hcj0 := ne_zero_of_mem_loopRange hcj
        rcases List.mem_append.mp hma with ha | ha <;>
          rcases List.mem_append.mp hmb with hb | hb
        · simp only [List.mem_cons, List.mem_singleton, List.not_mem_nil,
            or_false] at ha hb
          rcases ha with rfl | rfl <;> rcases hb with h | h
          · exact hne (k8sRealize_inj hci0 hcj0 h)
          · exact k8sRealize_ne_k8sCore hci0 hcj0 h
          · exact k8sRealize_ne_k8sCore hcj0 hci0 h.symm
          · exact hne (k8sCore_inj hci0 hcj0 h)
        · simp only [List.mem_cons, List.mem_singleton, List.not_mem_nil,
            or_false] at ha
          obtain ⟨wj, hwj, hmw⟩ := List.mem_flatMap.mp hb
          simp only [List.mem_cons, List.mem_singleton, List.not_mem_nil,
            or_false] at hmw
          rcases ha with rfl | rfl <;> rcases hmw with h | h <;>
            exact str_ne_of_mismatch (by decide) (by decide) _ _ h
        · obtain ⟨wi, hwi, hmw⟩ := List.mem_flatMap.mp ha
          simp only [List.mem_cons, List.mem_singleton, List.not_mem_nil,
            or_false] at hmw hb
          rcases hmw with rfl | rfl <;> rcases hb with h | h <;>
            exact str_ne_of_mismatch (by decide) (by decide) _ _ h
        · obtain ⟨wi, hwi, hmw⟩ := List.mem_flatMap.mp ha
          obtain ⟨wj, hwj, hmw'⟩ := List.mem_flatMap.mp hb
          have hwi0 := ne_zero_of_mem_loopRange hwi
          have hwj0 := ne_zero_of_mem_loopRange hwj
          simp only [List.mem_cons, List.mem_singleton, List.not_mem_nil,
            or_false] at hmw hmw'
          rcases hmw with rfl | rfl <;> rcases hmw' with h | h <;>
            exact hne (wkRel_inj hci0 hcj0 hwi0 hwj0 rfl rfl h).1
    · intro a hma hmb
      obtain ⟨i, hi, hmem⟩ := List.mem_flatMap.mp hma
      simp only [List.mem_cons, List.mem_singleton, List.not_mem_nil,
        or_false] at hmem
      obtain ⟨ci, hci, hmc⟩ := List.mem_flatMap.mp hmb
      rcases List.mem_append.mp hmc with hk | hw'
      · simp only [List.mem_cons, List.mem_singleton, List.not_mem_nil,
          or_false] at hk
        rcases hmem with rfl | rfl <;> rcases hk with h | h <;>
          exact str_ne_of_mismatch (by decide) (by decide) _ _ h
      · obtain ⟨wi, hwi, hmw⟩ := List.mem_flatMap.mp hw'
        simp only [List.mem_cons, List.mem_singleton, List.not_mem_nil,
          or_false] at hmw
        rcases hmem with rfl | rfl <;> rcases hmw with h | h <;>
          exact str_ne_of_mismatch (by decide) (by decide) _ _ h
  · intro a hma hmb
    rcases List.mem_append.mp hmb with h | h
    · obtain ⟨i, hi, hmem⟩ := List.mem_flatMap.mp h
      simp only [List.mem_cons, List.mem_singleton, List.not_mem_nil,
        or_false] at hmem
      rcases hmem with rfl | rfl <;> exact srvRel_not_core _ hma
    · obtain ⟨ci, hci, hmem⟩ := List.mem_flatMap.mp h
      rcases List.mem_append.mp hmem with hk | hw'
      · simp only [List.mem_cons, List.mem_singleton, List.not_mem_nil,
          or_false] at hk
        rcases hk with rfl | rfl <;> exact k8sRel_not_core _ hma
      · obtain ⟨wi, hwi, hmw⟩ := List.mem_flatMap.mp hw'
        simp only [List.mem_cons, List.mem_singleton, List.not_mem_nil,
          or_false] at hmw
        rcases hmw with rfl | rfl <;> exact wkRel_not_core _ hma


/-! ### I2 (second half): relationship ids are disjoint from element ids -/

theorem head_of_append (p x : String) {ch : Char} (h : p.data.head? = some ch) :
    (p ++ x).data.head? = some ch := by
  rw [String.data_append, List.head?_append, h]
  rfl

theorem elemId_head {s c w : Nat} {now x : String}
    (h : x ∈ elementIds (build_model s c w now)) : x.data.head? = some 'i' := by
  rw [elementIds_eq] at h
  rcases List.mem_append.mp h with h | h
  · rcases List.mem_append.mp h with h | h
    · simp only [coreIds, id_loc, id_svc_portfolio, id_svc_k8s, id_net_core,
        id_vlan_server, id_vlan_mgmt, List.mem_cons, List.not_mem_nil,
        or_false] at h
      rcases h with rfl | rfl | rfl | rfl | rfl | rfl <;> rfl
    · obtain ⟨i, _, rfl⟩ := List.mem_map.mp h
      exact head_of_append "id-dev-srv-" _ rfl
  · obtain ⟨ci, _, hm⟩ := List.mem_flatMap.mp h
    rcases List.mem_cons.mp hm with rfl | hm'
    · exact head_of_append "id-node-k8s-cluster-" _ rfl
    · obtain ⟨wi, _, rfl⟩ := List.mem_map.mp hm'
      exact head_of_append "id-dev-k8s-worker-" _ rfl

theorem relId_head {s c w : Nat} {now x : String}
    (h : x ∈ relationshipIds (build_model s c w now)) :
    x.data.head? = some 'r' := by
  rw [relationshipIds_eq] at h
  rcases List.mem_append.mp h with h | h
  · rcases List.mem_append.mp h with h | h
    · simp only [coreRelIds, List.mem_cons, List.not_mem_nil, or_false] at h
      rcases h with rfl | rfl | rfl <;> rfl
    · obtain ⟨i, _, hm⟩ := List.mem_flatMap.mp h
      simp only [List.mem_cons, List.mem_singleton, List.not_mem_nil,
        or_false] at hm
      rcases hm with rfl | rfl <;> exact head_of_append "r-srv-" _ rfl
  · obtain ⟨ci, _, hm⟩ := List.mem_flatMap.mp h
    rcases List.mem_append.mp hm with hk | hw'
    · simp only [List.mem_cons, List.mem_singleton, List.not_mem_nil,
        or_false] at hk
      rcases hk with rfl | rfl <;> exact head_of_append "r-k8s-" _ rfl
    · obtain ⟨wi, _, hmw⟩ := List.mem_flatMap.mp hw'
      simp only [List.mem_cons, List.mem_singleton, List.not_mem_nil,
        or_false] at hmw
      rcases hmw with rfl | rfl <;> exact head_of_append "r-wk-" _ rfl

theorem relIds_disjoint_elemIds (s c w : Nat) (now : String) :
    ∀ x ∈ relationshipIds (build_model s c w now),
      x ∉ elementIds (build_model s c w now) := by
  intro x hrel helem
  have h1 := relId_head hrel
  have h2 := elemId_head helem
  rw [h1] at h2
  simp at h2



/-! ### I3, I4, I5 -/

theorem core_mem_elementIds {x : String} {s c w : Nat} {now : String}
    (h : x ∈ coreIds) : x ∈ elementIds (build_model s c w now) := by
  rw [elementIds_eq]
  exact List.mem_append.mpr (Or.inl (List.mem_append.mpr (Or.inl h)))

theorem serverId_mem_elementIds {i s c w : Nat} {now : String}
    (hi : i ∈ loopRange s) :
    serverId i ∈ elementIds (build_model s c w now) := by
  rw [elementIds_eq]
  exact List.mem_append.mpr (Or.inl (List.mem_append.mpr
    (Or.inr (List.mem_map_of_mem _ hi))))

theorem clusterId_mem_elementIds {ci s c w : Nat} {now : String}
    (hc : ci ∈ loopRange c) :
    clusterId ci ∈ elementIds (build_model s c w now) := by
  rw [elementIds_eq]
  exact List.mem_append.mpr (Or.inr (List.mem_flatMap.mpr
    ⟨ci, hc, List.mem_cons_self _ _⟩))

theorem workerId_mem_elementIds {ci wi s c w : Nat} {now : String}
    (hc : ci ∈ loopRange c) (hw : wi ∈ loopRange w) :
    workerId ci wi ∈ elementIds (build_model s c w now) := by
  rw [elementIds_eq]
  exact List.mem_append.mpr (Or.inr (List.mem_flatMap.mpr
    ⟨ci, hc, List.mem_cons_of_mem _ (List.mem_map_of_mem _ hw)⟩))

theorem relationships_resolve (s c w : Nat) (now : String) :
    ∀ r ∈ (build_model s c w now).relationships,
      r.source ∈ elementIds (build_model s c w now) ∧
        r.target ∈ elementIds (build_model s c w now) := by
  intro r hr
  rw [relationships_eq] at hr
  rcases List.mem_append.mp hr with h | h
  · rcases List.mem_append.mp h with h | h
    · simp only [coreRelationships, List.mem_cons, List.not_mem_nil,
        or_false] at h
      rcases h with rfl | rfl | rfl <;>
        exact ⟨core_mem_elementIds (by decide), core_mem_elementIds (by decide)⟩
    · obtain ⟨i, hi, hm⟩ := List.mem_flatMap.mp h
      simp only [serverRelationships, List.mem_cons, List.mem_singleton,
        List.not_mem_nil, or_false] at hm
      rcases hm with rfl | rfl
      · refine ⟨serverId_mem_elementIds hi, ?_⟩
        show id_vlan_server ∈ elementIds (build_model s c w now)
        exact core_mem_elementIds (by decide)
      · refine ⟨serverId_mem_elementIds hi, ?_⟩
        show id_svc_portfolio ∈ elementIds (build_model s c w now)
        exact core_mem_elementIds (by decide)
  · obtain ⟨ci, hci, hm⟩ := List.mem_flatMap.mp h
    rcases List.mem_append.mp hm with hk | hw'
    · simp only [clusterRelationships, List.mem_cons, List.mem_singleton,
        List.not_mem_nil, or_false] at hk
      rcases hk with rfl | rfl
      · refine ⟨clusterId_mem_elementIds hci, ?_⟩
        show id_svc_k8s ∈ elementIds (build_model s c w now)
        exact core_mem_elementIds (by decide)
      · refine ⟨clusterId_mem_elementIds hci, ?_⟩
        show id_net_core ∈ elementIds (build_model s c w now)
        exact core_mem_elementIds (by decide)
    · obtain ⟨wi, hwi, hmw⟩ := List.mem_flatMap.mp hw'
      simp only [workerRelationships, List.mem_cons, List.mem_singleton,
        List.not_mem_nil, or_false] at hmw
      rcases hmw with rfl | rfl
      · exact ⟨workerId_mem_elementIds hci hwi, clusterId_mem_elementIds hci⟩
      · refine ⟨workerId_mem_elementIds hci hwi, ?_⟩
        show id_vlan_server ∈ elementIds (build_model s c w now)
        exact core_mem_elementIds (by decide)

@[simp] theorem serverElement_properties (i : Nat) :
    (serverElement i).properties =
      [⟨"pd-tech",
        if i % 2 = 0 then "x86_64, Linux" else "x86_64, Windows"⟩] := rfl

@[simp] theorem clusterElement_properties (c : Nat) :
    (clusterElement c).properties = [⟨"pd-tech", "Kubernetes"⟩] := rfl

@[simp] theorem workerElement_properties (c w : Nat) :
    (workerElement c w).properties = [⟨"pd-tech", "Linux Worker Node"⟩] := rfl

theorem properties_resolve (s c w : Nat) (now : String) :
    ∀ e ∈ (build_model s c w now).elements, ∀ p ∈ e.properties,
      p.propertyDefinitionRef ∈
        (build_model s c w now).propertyDefinitions.map (·.identifier) := by
  intro e he p hp
  have hpd : (build_model s c w now).propertyDefinitions.map (·.identifier) =
      ["pd-count", "pd-tech"] := rfl
  rw [hpd]
  rw [elements_eq] at he
  rcases List.mem_append.mp he with h | h
  · rcases List.mem_append.mp h with h | h
    · simp only [coreElements, List.mem_cons, List.not_mem_nil, or_false] at h
      rcases h with rfl | rfl | rfl | rfl | rfl | rfl <;>
        simp_all [make_element, add_property]
    · obtain ⟨i, _, rfl⟩ := List.mem_map.mp h
      rw [serverElement_properties] at hp
      rw [List.mem_singleton] at hp
      subst hp
      simp
  · obtain ⟨ci, _, hm⟩ := List.mem_flatMap.mp h
    rcases List.mem_cons.mp hm with rfl | hm'
    · rw [clusterElement_properties] at hp
      rw [List.mem_singleton] at hp
      subst hp
      simp
    · obtain ⟨wi, _, rfl⟩ := List.mem_map.mp hm'
      rw [workerElement_properties] at hp
      rw [List.mem_singleton] at hp
      subst hp
      simp

theorem flatMap_cons_perm {α : Type} (l : List Nat) (f : Nat → α)
    (g : Nat → List α) :
    List.Perm (l.flatMap fun x => f x :: g x) (l.map f ++ l.flatMap g) := by
  induction l with
  | nil => simp
  | cons a t ih =>
    simp only [List.flatMap_cons, List.map_cons, List.cons_append]
    refine List.Perm.cons _ ?_
    exact (List.Perm.append_left (g a) ih).trans
      (List.perm_append_comm_assoc _ _ _)

theorem orgRefs_perm (s c w : Nat) (now : String) :
    List.Perm (build_model s c w now).orgRefs
      (elementIds (build_model s c w now)) := by
  rw [elementIds_eq]
  have hsh : (build_model s c w now).orgRefs =
      (coreIds ++ (loopRange s).map serverId) ++
        ((loopRange c).map clusterId ++
          (loopRange c).flatMap (fun ci => (loopRange w).map (workerId ci))) := by
    show coreIds ++ server_ids s ++ cluster_ids c ++ worker_ids c w = _
    unfold server_ids cluster_ids worker_ids
    simp [List.append_assoc]
  rw [hsh]
  exact List.Perm.append_left _
    (flatMap_cons_perm (loopRange c) clusterId
      (fun ci => (loopRange w).map (workerId ci))).symm



/-! ### Element classification -/

theorem strHasP_srv_serverId (i : Nat) :
    strHasP "id-dev-srv-" (serverId i) = true :=
  strHasP_self _ _

theorem strHasP_wk_workerId (c w : Nat) :
    strHasP "id-dev-k8s-worker-" (workerId c w) = true :=
  strHasP_self _ _

theorem strHasP_srv_workerId (c w : Nat) :
    strHasP "id-dev-srv-" (workerId c w) = false :=
  strHasP_false (not_pre_of_mismatch (by decide) (by decide) _)

theorem strHasP_wk_serverId (i : Nat) :
    strHasP "id-dev-k8s-worker-" (serverId i) = false :=
  strHasP_false (not_pre_of_mismatch (by decide) (by decide) _)

theorem isServerDevice_server (i : Nat) :
    isServerDevice (serverElement i) = true := by
  unfold isServerDevice
  rw [serverElement_xsiType, serverElement_identifier, strHasP_srv_serverId]
  decide

theorem isServerDevice_cluster (c : Nat) :
    isServerDevice (clusterElement c) = false := by
  unfold isServerDevice
  rw [clusterElement_xsiType]
  rw [show ("Node" == "Device") = false from by decide]
  rfl

theorem isServerDevice_worker (c w : Nat) :
    isServerDevice (workerElement c w) = false := by
  unfold isServerDevice
  rw [workerElement_xsiType, workerElement_identifier, strHasP_srv_workerId]
  decide

theorem isWorkerDevice_server (i : Nat) :
    isWorkerDevice (serverElement i) = false := by
  unfold isWorkerDevice
  rw [serverElement_xsiType, serverElement_identifier, strHasP_wk_serverId]
  decide

theorem isWorkerDevice_cluster (c : Nat) :
    isWorkerDevice (clusterElement c) = false := by
  unfold isWorkerDevice
  rw [clusterElement_xsiType]
  rw [show ("Node" == "Device") = false from by decide]
  rfl

theorem isWorkerDevice_worker (c w : Nat) :
    isWorkerDevice (workerElement c w) = true := by
  unfold isWorkerDevice
  rw [workerElement_xsiType, workerElement_identifier, strHasP_wk_workerId]
  decide

/-! ### Counting -/

theorem loopRange_length (n : Nat) : (loopRange n).length = n := by
  unfold loopRange
  simp

theorem countP_flatMap_const {β : Type} (l : List Nat) (g : Nat → List β)
    (p : β → Bool) (k : Nat) (h : ∀ x ∈ l, (g x).countP p = k) :
    (l.flatMap g).countP p = l.length * k := by
  induction l with
  | nil => simp
  | cons a t ih =>
    simp only [List.flatMap_cons, List.countP_append, List.length_cons]
    rw [h a (List.mem_cons_self a t),
      ih (fun x hx => h x (List.mem_cons_of_mem a hx))]
    ring

theorem countP_map_zero {β : Type} {l : List Nat} {f : Nat → β} {p : β → Bool}
    (h : ∀ i, p (f i) = false) : (l.map f).countP p = 0 := by
  rw [List.countP_eq_zero]
  intro e he
  obtain ⟨i, _, rfl⟩ := List.mem_map.mp he
  simp [h i]

theorem countP_map_all {β : Type} {l : List Nat} {f : Nat → β} {p : β → Bool}
    (h : ∀ i, p (f i) = true) : (l.map f).countP p = l.length := by
  rw [← List.length_map l f, List.countP_eq_length]
  intro e he
  obtain ⟨i, _, rfl⟩ := List.mem_map.mp he
  exact h i

theorem countType_location (s c w : Nat) (now : String) :
    countType (build_model s c w now) "Location" = 1 := by
  unfold countType
  rw [elements_eq, List.countP_append, List.countP_append]
  rw [show coreElements.countP (fun e => e.xsiType == "Location") = 1 from
    by decide]
  rw [countP_map_zero (fun i => by rw [serverElement_xsiType]; decide)]
  rw [countP_flatMap_const _ _ _ 0 (fun ci _ => by
    rw [List.countP_cons]
    rw [countP_map_zero (fun wi => by rw [workerElement_xsiType]; decide)]
    rw [clusterElement_xsiType]
    decide)]
  omega

theorem countType_techsvc (s c w : Nat) (now : String) :
    countType (build_model s c w now) "TechnologyService" = 2 := by
  unfold countType
  rw [elements_eq, List.countP_append, List.countP_append]
  rw [show coreElements.countP (fun e => e.xsiType == "TechnologyService") = 2
    from by decide]
  rw [countP_map_zero (fun i => by rw [serverElement_xsiType]; decide)]
  rw [countP_flatMap_const _ _ _ 0 (fun ci _ => by
    rw [List.countP_cons]
    rw [countP_map_zero (fun wi => by rw [workerElement_xsiType]; decide)]
    rw [clusterElement_xsiType]
    decide)]
  omega

theorem countType_commnet (s c w : Nat) (now : String) :
    countType (build_model s c w now) "CommunicationNetwork" = 3 := by
  unfold countType
  rw [elements_eq, List.countP_append, List.countP_append]
  rw [show coreElements.countP
    (fun e => e.xsiType == "CommunicationNetwork") = 3 from by decide]
  rw [countP_map_zero (fun i => by rw [serverElement_xsiType]; decide)]
  rw [countP_flatMap_const _ _ _ 0 (fun ci _ => by
    rw [List.countP_cons]
    rw [countP_map_zero (fun wi => by rw [workerElement_xsiType]; decide)]
    rw [clusterElement_xsiType]
    decide)]
  omega

theorem countType_node (s c w : Nat) (now : String) :
    countType (build_model s c w now) "Node" = c := by
  unfold countType
  rw [elements_eq, List.countP_append, List.countP_append]
  rw [show coreElements.countP (fun e => e.xsiType == "Node") = 0 from
    by decide]
  rw [countP_map_zero (fun i => by rw [serverElement_xsiType]; decide)]
  rw [countP_flatMap_const _ _ _ 1 (fun ci _ => by
    rw [List.countP_cons]
    rw [countP_map_zero (fun wi => by rw [workerElement_xsiType]; decide)]
    rw [clusterElement_xsiType]
    decide)]
  rw [loopRange_length]
  omega

theorem count_serverDevice (s c w : Nat) (now : String) :
    (build_model s c w now).elements.countP isServerDevice = s := by
  rw [elements_eq, List.countP_append, List.countP_append]
  rw [show coreElements.countP isServerDevice = 0 from by decide]
  rw [countP_map_all isServerDevice_server]
  rw [countP_flatMap_const _ _ _ 0 (fun ci _ => by
    rw [List.countP_cons]
    rw [countP_map_zero (isServerDevice_worker ci)]
    rw [isServerDevice_cluster]
    decide)]
  rw [loopRange_length]
  omega

theorem count_workerDevice (s c w : Nat) (now : String) :
    (build_model s c w now).elements.countP isWorkerDevice = c * w := by
  rw [elements_eq, List.countP_append, List.countP_append]
  rw [show coreElements.countP isWorkerDevice = 0 from by decide]
  rw [countP_map_zero isWorkerDevice_server]
  rw [countP_flatMap_const _ _ _ w (fun ci _ => by
    rw [List.countP_cons]
    rw [countP_map_all (isWorkerDevice_worker ci)]
    rw [isWorkerDevice_cluster]
    rw [loopRange_length]
    simp)]
  rw [loopRange_length]
  omega



/-! ### Worker-relationship classification -/

theorem strHasP_wk_srvVlan (i : Nat) :
    strHasP "r-wk-" (srvVlanRelId i) = false :=
  strHasP_false (not_pre_of_mismatch (by decide) (by decide) _)

theorem strHasP_wk_srvPortfolio (i : Nat) :
    strHasP "r-wk-" (srvPortfolioRelId i) = false :=
  strHasP_false (not_pre_of_mismatch (by decide) (by decide) _)

theorem strHasP_wk_k8sRealize (c : Nat) :
    strHasP "r-wk-" (k8sRealizeRelId c) = false :=
  strHasP_false (not_pre_of_mismatch (by decide) (by decide) _)

theorem strHasP_wk_k8sCore (c : Nat) :
    strHasP "r-wk-" (k8sCoreRelId c) = false :=
  strHasP_false (not_pre_of_mismatch (by decide) (by decide) _)

theorem strHasP_wk_wkCluster (c w : Nat) :
    strHasP "r-wk-" (wkClusterRelId c w) = true :=
  strHasP_self _ _

theorem strHasP_wk_wkVlan (c w : Nat) :
    strHasP "r-wk-" (wkVlanRelId c w) = true :=
  strHasP_self _ _

/-! ### The `workersPerCluster = 0` mode -/

theorem filter_elements (s c w : Nat) (now : String) :
    (build_model s c w now).elements.filter (fun e => ! isWorkerDevice e) =
      (build_model s c 0 now).elements := by
  rw [elements_eq, elements_eq, List.filter_append, List.filter_append]
  have h1 : coreElements.filter (fun e => ! isWorkerDevice e) =
      coreElements := by decide
  have h2 : ((loopRange s).map serverElement).filter
      (fun e => ! isWorkerDevice e) = (loopRange s).map serverElement := by
    rw [List.filter_eq_self]
    intro e he
    obtain ⟨i, _, rfl⟩ := List.mem_map.mp he
    rw [isWorkerDevice_server]
    rfl
  have h3 : ((loopRange c).flatMap (fun ci =>
        clusterElement ci :: (loopRange w).map (workerElement ci))).filter
        (fun e => ! isWorkerDevice e) =
      (loopRange c).flatMap (fun ci =>
        clusterElement ci :: (loopRange 0).map (workerElement ci)) := by
    rw [List.filter_flatMap]
    refine congrArg _ (funext fun ci => ?_)
    rw [List.filter_cons]
    rw [show (! isWorkerDevice (clusterElement ci)) = true from
      by rw [isWorkerDevice_cluster]; rfl]
    rw [if_pos rfl]
    rw [show ((loopRange w).map (workerElement ci)).filter
        (fun e => ! isWorkerDevice e) = [] from by
      rw [List.filter_eq_nil_iff]
      intro e he
      obtain ⟨wi, _, rfl⟩ := List.mem_map.mp he
      rw [isWorkerDevice_worker]
      decide]
    rfl
  rw [h1, h2, h3]

theorem filter_relationships (s c w : Nat) (now : String) :
    (build_model s c w now).relationships.filter
        (fun r => ! isWorkerRelationship r) =
      (build_model s c 0 now).relationships := by
  rw [relationships_eq, relationships_eq, List.filter_append,
    List.filter_append]
  have h1 : coreRelationships.filter (fun r => ! isWorkerRelationship r) =
      coreRelationships := by decide
  have h2 : ((loopRange s).flatMap serverRelationships).filter
      (fun r => ! isWorkerRelationship r) =
      (loopRange s).flatMap serverRelationships := by
    rw [List.filter_eq_self]
    intro r hr
    obtain ⟨i, _, hm⟩ := List.mem_flatMap.mp hr
    simp only [serverRelationships, List.mem_cons, List.mem_singleton,
      List.not_mem_nil, or_false] at hm
    rcases hm with rfl | rfl
    · unfold isWorkerRelationship
      rw [make_relationship_identifier, strHasP_wk_srvVlan]
      rfl
    · unfold isWorkerRelationship
      rw [make_relationship_identifier, strHasP_wk_srvPortfolio]
      rfl
  have h3 : ((loopRange c).flatMap (fun ci =>
        clusterRelationships ci ++
          (loopRange w).flatMap (workerRelationships ci))).filter
        (fun r => ! isWorkerRelationship r) =
      (loopRange c).flatMap (fun ci =>
        clusterRelationships ci ++
          (loopRange 0).flatMap (workerRelationships ci)) := by
    rw [List.filter_flatMap]
    refine congrArg _ (funext fun ci => ?_)
    rw [List.filter_append]
    have hk : (clusterRelationships ci).filter
        (fun r => ! isWorkerRelationship r) = clusterRelationships ci := by
      rw [List.filter_eq_self]
      intro r hr
      simp only [clusterRelationships, List.mem_cons, List.mem_singleton,
        List.not_mem_nil, or_false] at hr
      rcases hr with rfl | rfl
      · unfold isWorkerRelationship
        rw [make_relationship_identifier, strHasP_wk_k8sRealize]
        rfl
      · unfold isWorkerRelationship
        rw [make_relationship_identifier, strHasP_wk_k8sCore]
        rfl
    have hw : ((loopRange w).flatMap (workerRelationships ci)).filter
        (fun r => ! isWorkerRelationship r) = [] := by
      rw [List.filter_eq_nil_iff]
      intro r hr
      obtain ⟨wi, _, hm⟩ := List.mem_flatMap.mp hr
      simp only [workerRelationships, List.mem_cons, List.mem_singleton,
        List.not_mem_nil, or_false] at hm
      rcases hm with rfl | rfl
      · unfold isWorkerRelationship
        rw [make_relationship_identifier, strHasP_wk_wkCluster]
        decide
      · unfold isWorkerRelationship
        rw [make_relationship_identifier, strHasP_wk_wkVlan]
        decide
    rw [hk, hw]
    rfl
  rw [h1, h2, h3]

theorem count_workerRel_zero (s c : Nat) (now : String) :
    (build_model s c 0 now).relationships.countP isWorkerRelationship = 0 := by
  rw [relationships_eq, List.countP_append, List.countP_append]
  rw [show coreRelationships.countP isWorkerRelationship = 0 from by decide]
  rw [countP_flatMap_const _ _ _ 0 (fun i _ => by
    unfold serverRelationships
    rw [List.countP_cons, List.countP_cons]
    unfold isWorkerRelationship
    rw [make_relationship_identifier, make_relationship_identifier,
      strHasP_wk_srvVlan, strHasP_wk_srvPortfolio]
    decide)]
  rw [countP_flatMap_const _ _ _ 0 (fun ci _ => by
    rw [List.countP_append]
    rw [show ((loopRange 0).flatMap (workerRelationships ci)).countP
      isWorkerRelationship = 0 from rfl]
    unfold clusterRelationships
    rw [List.countP_cons, List.countP_cons]
    unfold isWorkerRelationship
    rw [make_relationship_identifier, make_relationship_identifier,
      strHasP_wk_k8sRealize, strHasP_wk_k8sCore]
    decide)]
  omega



/-! ### Spec-side padding and length lemmas -/

/-- Spec-side formatting, written from the spec's words ("`i` zero-padded to
`w` digits"): the base-10 digits of `n` (most significant first, via
`Nat.digits`), left-padded with `'0'` to width `w`. -/
def zeroPad (w : Nat) (n : Nat) : String :=
  ⟨List.replicate (w - (Nat.digits 10 n).length) '0' ++
    ((Nat.digits 10 n).map Nat.digitChar).reverse⟩

theorem pad_eq_zeroPad {n : Nat} (hn : n ≠ 0) (w : Nat) :
    pad w n = zeroPad w n := by
  apply String.ext
  rw [pad_data]
  show _ = List.replicate (w - (Nat.digits 10 n).length) '0' ++
    ((Nat.digits 10 n).map Nat.digitChar).reverse
  unfold decChars
  rw [if_neg hn]
  simp

theorem flatMap_congr_mem {α : Type} {l : List Nat} {f g : Nat → List α}
    (h : ∀ x ∈ l, f x = g x) : l.flatMap f = l.flatMap g := by
  induction l with
  | nil => rfl
  | cons a t ih =>
    simp only [List.flatMap_cons]
    rw [h a (List.mem_cons_self a t),
      ih (fun x hx => h x (List.mem_cons_of_mem a hx))]

theorem length_flatMap_const {β : Type} (l : List Nat) (g : Nat → List β)
    (k : Nat) (h : ∀ x ∈ l, (g x).length = k) :
    (l.flatMap g).length = l.length * k := by
  induction l with
  | nil => simp
  | cons a t ih =>
    simp only [List.flatMap_cons, List.length_append, List.length_cons]
    rw [h a (List.mem_cons_self a t),
      ih (fun x hx => h x (List.mem_cons_of_mem a hx))]
    ring

theorem worker_ids_length (c w : Nat) : (worker_ids c w).length = c * w := by
  unfold worker_ids
  rw [length_flatMap_const _ _ w (fun ci _ => by
    rw [List.length_map, loopRange_length])]
  rw [loopRange_length]



/-! ### The claims -/

/-- C1: for every valid input triple (`serverCount ≥ 1`, `clusterCount ≥ 1`,
`workersPerCluster ≥ 0`), the model built by `build_model` contains exactly
one `Location`, two `TechnologyService` and three `CommunicationNetwork`
elements, exactly `serverCount` server `Device` elements, exactly
`clusterCount` `Node` elements, and `clusterCount * workersPerCluster`
worker `Device` elements. -/
theorem C1_cardinalities (s c w : Nat) (now : String) (hs : 1 ≤ s)
    (hc : 1 ≤ c) :
    countType (build_model s c w now) "Location" = 1 ∧
    countType (build_model s c w now) "TechnologyService" = 2 ∧
    countType (build_model s c w now) "CommunicationNetwork" = 3 ∧
    (build_model s c w now).elements.countP isServerDevice = s ∧
    countType (build_model s c w now) "Node" = c ∧
    (build_model s c w now).elements.countP isWorkerDevice = c * w :=
  ⟨countType_location s c w now, countType_techsvc s c w now,
    countType_commnet s c w now, count_serverDevice s c w now,
    countType_node s c w now, count_workerDevice s c w now⟩

theorem C1_cardinalities_witness :
    (1:Nat) ≤ 1 ∧ (1:Nat) ≤ 2 ∧
      (countType (build_model 1 2 3 "T") "Location" = 1 ∧
        countType (build_model 1 2 3 "T") "TechnologyService" = 2 ∧
        countType (build_model 1 2 3 "T") "CommunicationNetwork" = 3 ∧
        (build_model 1 2 3 "T").elements.countP isServerDevice = 1 ∧
        countType (build_model 1 2 3 "T") "Node" = 2 ∧
        (build_model 1 2 3 "T").elements.countP isWorkerDevice = 2 * 3) :=
  ⟨by decide, by decide, C1_cardinalities 1 2 3 "T" (by decide) (by decide)⟩

/-- C2: for every valid input triple, element identifiers are pairwise
distinct, relationship identifiers are pairwise distinct, and the two sets
of identifiers are disjoint. -/
theorem C2_identifier_distinctness (s c w : Nat) (now : String) (hs : 1 ≤ s)
    (hc : 1 ≤ c) :
    (elementIds (build_model s c w now)).Nodup ∧
    (relationshipIds (build_model s c w now)).Nodup ∧
    ∀ x ∈ relationshipIds (build_model s c w now),
      x ∉ elementIds (build_model s c w now) :=
  ⟨elementIds_nodup s c w now, relationshipIds_nodup s c w now,
    relIds_disjoint_elemIds s c w now⟩

theorem C2_identifier_distinctness_witness :
    (1:Nat) ≤ 1 ∧ (1:Nat) ≤ 1 ∧
      ((elementIds (build_model 1 1 1 "T")).Nodup ∧
        (relationshipIds (build_model 1 1 1 "T")).Nodup ∧
        ∀ x ∈ relationshipIds (build_model 1 1 1 "T"),
          x ∉ elementIds (build_model 1 1 1 "T")) :=
  ⟨by decide, by decide,
    C2_identifier_distinctness 1 1 1 "T" (by decide) (by decide)⟩

/-- C3: for every valid input triple, every relationship's `source` and
`target` attributes equal the identifier of some element of the model (no
dangling references). -/
theorem C3_references_resolve (s c w : Nat) (now : String) (hs : 1 ≤ s)
    (hc : 1 ≤ c) :
    ∀ r ∈ (build_model s c w now).relationships,
      r.source ∈ elementIds (build_model s c w now) ∧
        r.target ∈ elementIds (build_model s c w now) :=
  relationships_resolve s c w now

theorem C3_references_resolve_witness :
    (1:Nat) ≤ 1 ∧ (1:Nat) ≤ 1 ∧
      ∀ r ∈ (build_model 1 1 1 "T").relationships,
        r.source ∈ elementIds (build_model 1 1 1 "T") ∧
          r.target ∈ elementIds (build_model 1 1 1 "T") :=
  ⟨by decide, by decide,
    C3_references_resolve 1 1 1 "T" (by decide) (by decide)⟩

/-- C4: for every valid input triple the generated identifiers are exactly:
`id-loc-dc1`; `id-techsvc-portfolio` and `id-techsvc-k8s`; `id-net-core`,
`id-vlan20-server`, `id-vlan30-mgmt`; server `i` is `id-dev-srv-` followed
by `i` zero-padded to 4 digits; cluster `c` is `id-node-k8s-cluster-`
followed by `c` zero-padded to 3 digits; worker `w` of cluster `c` is
`id-dev-k8s-worker-` followed by `c` and `w` zero-padded to 3 digits;
property definitions `pd-count` and `pd-tech`. -/
theorem C4_identifier_shapes (s c w : Nat) (now : String) (hs : 1 ≤ s)
    (hc : 1 ≤ c) :
    elementIds (build_model s c w now) =
      ["id-loc-dc1", "id-techsvc-portfolio", "id-techsvc-k8s", "id-net-core",
        "id-vlan20-server", "id-vlan30-mgmt"] ++
        (loopRange s).map (fun i => "id-dev-srv-" ++ zeroPad 4 i) ++
        (loopRange c).flatMap (fun ci =>
          ("id-node-k8s-cluster-" ++ zeroPad 3 ci) ::
            (loopRange w).map (fun wi =>
              "id-dev-k8s-worker-" ++
                (zeroPad 3 ci ++ ("-" ++ zeroPad 3 wi)))) ∧
    (build_model s c w now).propertyDefinitions.map (·.identifier) =
      ["pd-count", "pd-tech"] := by
  constructor
  · rw [elementIds_eq]
    rw [show coreIds = ["id-loc-dc1", "id-techsvc-portfolio", "id-techsvc-k8s",
      "id-net-core", "id-vlan20-server", "id-vlan30-mgmt"] from rfl]
    rw [List.map_congr_left (fun i hi => by
      show serverId i = "id-dev-srv-" ++ zeroPad 4 i
      unfold serverId
      rw [pad_eq_zeroPad (ne_zero_of_mem_loopRange hi)])]
    rw [flatMap_congr_mem (fun ci hci => by
      have hc0 := ne_zero_of_mem_loopRange hci
      have hhd : clusterId ci = "id-node-k8s-cluster-" ++ zeroPad 3 ci := by
        unfold clusterId
        rw [pad_eq_zeroPad hc0]
      have htl : (loopRange w).map (workerId ci) =
          (loopRange w).map (fun wi =>
            "id-dev-k8s-worker-" ++ (zeroPad 3 ci ++ ("-" ++ zeroPad 3 wi))) :=
        List.map_congr_left (fun wi hwi => by
          show workerId ci wi = _
          unfold workerId
          rw [pad_eq_zeroPad hc0,
            pad_eq_zeroPad (ne_zero_of_mem_loopRange hwi)])
      rw [hhd, htl])]
  · rfl

theorem C4_identifier_shapes_witness :
    (1:Nat) ≤ 1 ∧ (1:Nat) ≤ 1 ∧
      (elementIds (build_model 1 1 1 "T") =
        ["id-loc-dc1", "id-techsvc-portfolio", "id-techsvc-k8s",
          "id-net-core", "id-vlan20-server", "id-vlan30-mgmt"] ++
          (loopRange 1).map (fun i => "id-dev-srv-" ++ zeroPad 4 i) ++
          (loopRange 1).flatMap (fun ci =>
            ("id-node-k8s-cluster-" ++ zeroPad 3 ci) ::
              (loopRange 1).map (fun wi =>
                "id-dev-k8s-worker-" ++
                  (zeroPad 3 ci ++ ("-" ++ zeroPad 3 wi)))) ∧
      (build_model 1 1 1 "T").propertyDefinitions.map (·.identifier) =
        ["pd-count", "pd-tech"]) :=
  ⟨by decide, by decide,
    C4_identifier_shapes 1 1 1 "T" (by decide) (by decide)⟩

/-- C5: for every valid input triple, the organization tree is one root
folder labeled "Technology" whose leaf references list every element
identifier exactly once, in the order: location, service-portfolio,
container-platform service, core network, server-VLAN, management-VLAN,
then all servers, then all clusters, then all workers (by cluster, then by
worker index). -/
theorem C5_organization_tree (s c w : Nat) (now : String) (hs : 1 ≤ s)
    (hc : 1 ≤ c) :
    (build_model s c w now).orgLabel = "Technology" ∧
    (build_model s c w now).orgRefs =
      coreIds ++ (loopRange s).map serverId ++ (loopRange c).map clusterId ++
        (loopRange c).flatMap (fun ci => (loopRange w).map (workerId ci)) ∧
    List.Perm (build_model s c w now).orgRefs
      (elementIds (build_model s c w now)) ∧
    ∀ x ∈ elementIds (build_model s c w now),
      (build_model s c w now).orgRefs.count x = 1 := by
  refine ⟨rfl, rfl, orgRefs_perm s c w now, ?_⟩
  intro x hx
  have hperm := orgRefs_perm s c w now
  rw [List.Perm.count_eq hperm x]
  exact List.count_eq_one_of_mem (elementIds_nodup s c w now) hx

theorem C5_organization_tree_witness :
    (1:Nat) ≤ 1 ∧ (1:Nat) ≤ 1 ∧
      ((build_model 1 1 1 "T").orgLabel = "Technology" ∧
        (build_model 1 1 1 "T").orgRefs =
          coreIds ++ (loopRange 1).map serverId ++
            (loopRange 1).map clusterId ++
            (loopRange 1).flatMap (fun ci =>
              (loopRange 1).map (workerId ci)) ∧
        List.Perm (build_model 1 1 1 "T").orgRefs
          (elementIds (build_model 1 1 1 "T")) ∧
        ∀ x ∈ elementIds (build_model 1 1 1 "T"),
          (build_model 1 1 1 "T").orgRefs.count x = 1) :=
  ⟨by decide, by decide,
    C5_organization_tree 1 1 1 "T" (by decide) (by decide)⟩

/-- C6: two runs with identical parameters produce identical identifiers and
identical structural shape (same element/relationship sequences, ordering
and counts); the only field that may differ is the wall-clock-derived
documentation text. -/
theorem C6_reproducibility (s c w : Nat) (now₁ now₂ : String) :
    (build_model s c w now₁).elements = (build_model s c w now₂).elements ∧
    (build_model s c w now₁).relationships =
      (build_model s c w now₂).relationships ∧
    (build_model s c w now₁).orgRefs = (build_model s c w now₂).orgRefs ∧
    (build_model s c w now₁).propertyDefinitions =
      (build_model s c w now₂).propertyDefinitions ∧
    (build_model s c w now₁).identifier =
      (build_model s c w now₂).identifier ∧
    (build_model s c w now₁).name_de = (build_model s c w now₂).name_de ∧
    (build_model s c w now₁).orgLabel = (build_model s c w now₂).orgLabel ∧
    build_model s c w now₁ =
      { build_model s c w now₂ with
          documentation := (build_model s c w now₁).documentation } :=
  ⟨rfl, rfl, rfl, rfl, rfl, rfl, rfl, rfl⟩

/-- C7: for every valid `serverCount` and `clusterCount`,
`workersPerCluster = 0` yields zero worker devices and zero worker
relationships, and for any `workersPerCluster` the non-worker parts of the
element and relationship sequences are exactly those of the
`workersPerCluster = 0` model; it is not an error. -/
theorem C7_zero_workers (s c : Nat) (now : String) (hs : 1 ≤ s)
    (hc : 1 ≤ c) :
    (build_model s c 0 now).elements.countP isWorkerDevice = 0 ∧
    (build_model s c 0 now).relationships.countP isWorkerRelationship = 0 ∧
    ∀ w : Nat,
      (build_model s c w now).elements.filter (fun e => ! isWorkerDevice e) =
        (build_model s c 0 now).elements ∧
      (build_model s c w now).relationships.filter
          (fun r => ! isWorkerRelationship r) =
        (build_model s c 0 now).relationships := by
  refine ⟨?_, count_workerRel_zero s c now,
    fun w => ⟨filter_elements s c w now, filter_relationships s c w now⟩⟩
  have h := count_workerDevice s c 0 now
  simpa using h

theorem C7_zero_workers_witness :
    (1:Nat) ≤ 1 ∧ (1:Nat) ≤ 1 ∧
      ((build_model 1 1 0 "T").elements.countP isWorkerDevice = 0 ∧
        (build_model 1 1 0 "T").relationships.countP isWorkerRelationship =
          0 ∧
        ∀ w : Nat,
          (build_model 1 1 w "T").elements.filter
              (fun e => ! isWorkerDevice e) =
            (build_model 1 1 0 "T").elements ∧
          (build_model 1 1 w "T").relationships.filter
              (fun r => ! isWorkerRelationship r) =
            (build_model 1 1 0 "T").relationships) :=
  ⟨by decide, by decide, C7_zero_workers 1 1 "T" (by decide) (by decide)⟩

/-- C8 (counterexample): the claim says server 1 (odd) has technology
property value `"Windows"`; in the generated model the value is
`"x86_64, Windows"`, so the claim as stated is false. -/
theorem C8_parity_counterexample :
    ∃ e ∈ (build_model 1 1 0 "T").elements,
      e.identifier = serverId 1 ∧ techValue e ≠ some "Windows" ∧
        techValue e ≠ some "Linux" ∧
        techValue e = some "x86_64, Windows" := by
  decide

/-- C8 (amended): for every server index `i` in `1..serverCount`, the server
device's `pd-tech` property value is `"x86_64, Linux"` when `i` is even and
`"x86_64, Windows"` when `i` is odd. -/
theorem C8_parity_amended (s c w : Nat) (now : String) (hs : 1 ≤ s)
    (hc : 1 ≤ c) (i : Nat) (h1 : 1 ≤ i) (h2 : i ≤ s) :
    ∃ e ∈ (build_model s c w now).elements, e.identifier = serverId i ∧
      techValue e =
        some (if i % 2 = 0 then "x86_64, Linux" else "x86_64, Windows") := by
  refine ⟨serverElement i, ?_, rfl, ?_⟩
  · rw [elements_eq]
    exact List.mem_append.mpr (Or.inl (List.mem_append.mpr (Or.inr
      (List.mem_map_of_mem _ (mem_loopRange_iff.mpr ⟨h1, h2⟩)))))
  · rfl

theorem C8_parity_amended_witness :
    (1:Nat) ≤ 2 ∧ (1:Nat) ≤ 1 ∧ (1:Nat) ≤ 2 ∧ (2:Nat) ≤ 2 ∧
      ∃ e ∈ (build_model 2 1 0 "T").elements, e.identifier = serverId 2 ∧
        techValue e =
          some (if 2 % 2 = 0 then "x86_64, Linux" else "x86_64, Windows") :=
  ⟨by decide, by decide, by decide, by decide,
    C8_parity_amended 2 1 0 "T" (by decide) (by decide) 2 (by decide)
      (by decide)⟩

/-- C9: `main` rejects invalid parsed arguments (servers < 1, clusters < 1,
workers-per-cluster < 0) with a fatal error before any construction (no
model is written), and on valid input succeeds, writing the model and
printing the two summary lines (output path; server, cluster and total
worker counts). -/
theorem C9_cli_validation (servers k8s_clusters k8s_workers_per_cluster : Int)
    (out now : String) :
    ((servers < 1 ∨ k8s_clusters < 1 ∨ k8s_workers_per_cluster < 0) →
      ∃ msg, run_main servers k8s_clusters k8s_workers_per_cluster out now =
        CliOutcome.fatal msg) ∧
    (1 ≤ servers → 1 ≤ k8s_clusters → 0 ≤ k8s_workers_per_cluster →
      run_main servers k8s_clusters k8s_workers_per_cluster out now =
        CliOutcome.success
          (build_model servers.toNat k8s_clusters.toNat
            k8s_workers_per_cluster.toNat now)
          ("Wrote: " ++ out)
          ("Servers: " ++ Nat.repr servers.toNat ++ ", K8s clusters: " ++
            Nat.repr k8s_clusters.toNat ++ ", K8s workers total: " ++
            Nat.repr (k8s_clusters.toNat * k8s_workers_per_cluster.toNat))) := by
  constructor
  · intro h
    unfold run_main
    by_cases h1 : servers < 1
    · rw [if_pos h1]
      exact ⟨_, rfl⟩
    · rw [if_neg h1]
      by_cases h2 : k8s_clusters < 1
      · rw [if_pos h2]
        exact ⟨_, rfl⟩
      · rw [if_neg h2]
        have h3 : k8s_workers_per_cluster < 0 := by tauto
        rw [if_pos h3]
        exact ⟨_, rfl⟩
  · intro h1 h2 h3
    unfold run_main
    rw [if_neg (by omega), if_neg (by omega), if_neg (by omega)]
    rw [worker_ids_length]

theorem C9_cli_validation_witness :
    (((0:Int) < 1 ∨ (1:Int) < 1 ∨ (0:Int) < 0) ∧
      ∃ msg, run_main 0 1 0 "out.xml" "T" = CliOutcome.fatal msg) ∧
    ((1:Int) ≤ 1 ∧ (0:Int) ≤ 0 ∧
      run_main 1 1 0 "out.xml" "T" =
        CliOutcome.success
          (build_model (Int.toNat 1) (Int.toNat 1) (Int.toNat 0) "T")
          ("Wrote: " ++ "out.xml")
          ("Servers: " ++ Nat.repr (Int.toNat 1) ++ ", K8s clusters: " ++
            Nat.repr (Int.toNat 1) ++ ", K8s workers total: " ++
            Nat.repr (Int.toNat 1 * Int.toNat 0))) :=
  ⟨⟨Or.inl (by decide),
      (C9_cli_validation 0 1 0 "out.xml" "T").1 (Or.inl (by decide))⟩,
    ⟨by decide, by decide,
      (C9_cli_validation 1 1 0 "out.xml" "T").2 (by decide) (by decide)
        (by decide)⟩⟩

/-- C10: `build_model` itself validates nothing: for all nonnegative
arguments — including zero servers or zero clusters, which the CLI wrapper
rejects — it produces a document in which distinctness (I1, I2), reference
resolution (I3), property-definition resolution (I4) and the
organization-tree invariant (I5) all hold, the empty loops simply
contributing nothing. -/
theorem C10_invariants_without_validation (s c w : Nat) (now : String) :
    (elementIds (build_model s c w now)).Nodup ∧
    (relationshipIds (build_model s c w now)).Nodup ∧
    (∀ x ∈ relationshipIds (build_model s c w now),
      x ∉ elementIds (build_model s c w now)) ∧
    (∀ r ∈ (build_model s c w now).relationships,
      r.source ∈ elementIds (build_model s c w now) ∧
        r.target ∈ elementIds (build_model s c w now)) ∧
    (∀ e ∈ (build_model s c w now).elements, ∀ p ∈ e.properties,
      p.propertyDefinitionRef ∈
        (build_model s c w now).propertyDefinitions.map (·.identifier)) ∧
    List.Perm (build_model s c w now).orgRefs
      (elementIds (build_model s c w now)) :=
  ⟨elementIds_nodup s c w now, relationshipIds_nodup s c w now,
    relIds_disjoint_elemIds s c w now, relationships_resolve s c w now,
    properties_resolve s c w now, orgRefs_perm s c w now⟩


end Archi
